import Mathlib

/-!
Verification of the update-dispatch core of a Telegram bot library
(handlers, filters, promise, chat permissions), shallowly embedded from
the Python sources in `src/`.  Python `None`/`bool`/`dict` results of a
filter are modelled by `FilterResult`; Python exceptions by the `Exc`
type together with `Except`; Python `frozenset` by `Finset`.
-/

set_option maxHeartbeats 1000000
set_option linter.unusedVariables false

/-- A Python exception value (anything caught by `except Exception`). -/
structure Exc where
  name : String
deriving DecidableEq, Repr

/-- Keys of the dicts returned by data filters (Python `str`). -/
abbrev Key := String

/-- Result of evaluating a filter, or of `check_update`: Python `None`,
a `bool`, or a `dict` of named extracted values. -/
inductive FilterResult (V : Type) where
  | pyNone : FilterResult V
  | pyBool (b : Bool) : FilterResult V
  | pyDict (d : List (Key × V)) : FilterResult V
deriving DecidableEq, Repr

/-- Python truthiness of a `FilterResult`: `None` and `False` and the
empty dict are falsy, `True` and a non-empty dict are truthy. -/
def FilterResult.truthy {V : Type} : FilterResult V → Bool
  | .pyNone => false
  | .pyBool b => b
  | .pyDict d => !d.isEmpty

/-- Whether a `FilterResult` is a `bool` or a `dict` (i.e. not `None`). -/
def FilterResult.isBoolOrDict {V : Type} : FilterResult V → Bool
  | .pyNone => false
  | .pyBool _ => true
  | .pyDict _ => true

/-- Python `x or False`: `x` when truthy, else `False`. -/
def pyOrFalse {V : Type} (r : FilterResult V) : FilterResult V :=
  if r.truthy then r else .pyBool false

/-- `telegram.Chat`, reduced to the field the handlers read. -/
structure Chat where
  id : Int
deriving DecidableEq, Repr

/-- `telegram.User`, reduced to the field the handlers read; `username`
is optional in the platform's data model. -/
structure User where
  username : Option (List Char)
deriving DecidableEq, Repr

/-- `telegram.ChatJoinRequest`: the chat being joined and the requesting
user. -/
structure ChatJoinRequest where
  chat : Chat
  from_user : User
deriving DecidableEq, Repr

/-- `telegram.Update`, reduced to the attribute the handlers in `src/`
inspect.  `chat_join_request` is `None` when absent. -/
structure Update where
  chat_join_request : Option ChatJoinRequest := none
deriving DecidableEq, Repr

/-- An arbitrary Python object handed to `check_update`: either a real
`Update` or some other object (`isinstance(update, Update)` fails). -/
inductive PyObject where
  | update (u : Update)
  | other (o : Nat)
deriving DecidableEq, Repr

/-! ## telegram.utils.promise.Promise -/

/-- `Promise` from `src/telegram/utils/promise.py`.  `pooled_function`
may raise (modelled by `Except`); `done` is the threading `Event`
(`false` = unset), `_result` and `_exception` start as `None`. -/
structure Promise (α γ β : Type) where
  pooled_function : α → γ → Except Exc β
  args : α
  kwargs : γ
  done : Bool
  _result : Option β
  _exception : Option Exc

/-- `Promise.__init__`: stores the callable and its arguments, creates
an unset `done` event, and initialises result and exception to `None`. -/
def Promise.init {α γ β : Type} (pooled_function : α → γ → Except Exc β)
    (args : α) (kwargs : γ) : Promise α γ β :=
  { pooled_function := pooled_function
    args := args
    kwargs := kwargs
    done := false
    _result := none
    _exception := none }

/-- `Promise.run`: `try: self._result = self.pooled_function(*args, **kwargs)`,
`except Exception as exc: self._exception = exc`, `finally: self.done.set()`.
The return value is `Except.ok` of the updated promise when `run` returns
normally, and `Except.error` (carrying the state after the `finally`
block) if an exception were to escape `run`. -/
def Promise.run {α γ β : Type} (p : Promise α γ β) :
    Except (Exc × Promise α γ β) (Promise α γ β) :=
  let body : Except Exc (Promise α γ β) :=
    match p.pooled_function p.args p.kwargs with
    | .ok v => .ok { p with _result := some v }
    | .error exc => .ok { p with _exception := some exc }
  match body with
  | .ok q => .ok { q with done := true }
  | .error e => .error (e, { p with done := true })

/-- `Promise.result(timeout)`: after `done.wait(timeout)`, re-raise the
stored exception if there is one, else return `_result` (which is still
`None` when the timeout expired before `run` finished). -/
def Promise.result {α γ β : Type} (p : Promise α γ β) (timeout : Option Nat) :
    Except Exc (Option β) :=
  match p._exception with
  | some e => .error e
  | none => .ok p._result

/-- `Promise.exception` property: the stored exception or `None`. -/
def Promise.exception {α γ β : Type} (p : Promise α γ β) : Option Exc :=
  p._exception

/-! ## Filters and MessageHandler -/

/-- Modelled from the spec: the `telegram.ext.filters` module is not in
the provided sources; per the spec a filter is a pure function
`Update -> MatchResult` where the match result is `false`, `true`, or a
mapping of named extracted values. -/
def BaseFilter (V : Type) : Type := Update → FilterResult V

/-- Modelled from the spec: `filters_module.ALL`, the filter a
`MessageHandler` defaults to, matches every update (returns `True`). -/
def filters_module.ALL {V : Type} : BaseFilter V := fun _ => .pyBool true

/-- `MessageHandler` from `src/telegram/ext/_messagehandler.py`:
a filter plus the callback and block flag stored by `BaseHandler`
(the callback is opaque to the dispatch logic verified here). -/
structure MessageHandler (V : Type) where
  filters : BaseFilter V
  callback : Nat
  block : Bool

/-- `MessageHandler.__init__`: stores callback and block, and sets
`self.filters = filters if filters is not None else filters_module.ALL`. -/
def MessageHandler.init {V : Type} (filters : Option (BaseFilter V))
    (callback : Nat) (block : Bool) : MessageHandler V :=
  { filters :=
      match filters with
      | some f => f
      | none => filters_module.ALL
    callback := callback
    block := block }

/-- `MessageHandler.check_update`: for an `Update` it returns
`self.filters.check_update(update) or False`; for any other object it
falls through and returns `None`. -/
def MessageHandler.check_update {V : Type} (h : MessageHandler V)
    (update : PyObject) : FilterResult V :=
  match update with
  | .update u => pyOrFalse (h.filters u)
  | .other _ => .pyNone

/-- A callback context's mutable data bag, modelled as a Python dict:
an association list with unique keys, in insertion order. -/
abbrev Context (V : Type) := List (Key × V)

/-- Python `d[k] = v` on a dict: overwrite the existing entry for `k`
in place, else append a new entry. -/
def dict_set {V : Type} : Context V → Key → V → Context V
  | [], k, v => [(k, v)]
  | kv :: rest, k, v =>
      if kv.1 = k then (k, v) :: rest else kv :: dict_set rest k v

/-- Python `d.update(d2)`: set every key-value pair of `d2` in `d`, in
order (so a later pair for the same key wins). -/
def dict_update {V : Type} (d d2 : Context V) : Context V :=
  d2.foldl (fun acc kv => dict_set acc kv.1 kv.2) d

/-- Python `d.get(k)`: the value stored for `k`, or `None`. -/
def dict_lookup {V : Type} : Context V → Key → Option V
  | [], _ => none
  | kv :: rest, k => if kv.1 = k then some kv.2 else dict_lookup rest k

/-- `MessageHandler.collect_additional_context`: if the check result is
a dict, `context.update(check_result)`; otherwise the context is left
unchanged.  The `application` argument is unused by the source. -/
def MessageHandler.collect_additional_context {V : Type}
    (context : Context V) (update : Update) (application : Unit)
    (check_result : FilterResult V) : Context V :=
  match check_result with
  | .pyDict d => dict_update context d
  | _ => context

/-! ## ChatJoinRequestHandler -/

/-- `SCT[X]` ("single or collection thereof"): an argument that is
either one value or a collection of values. -/
inductive SCT (α : Type) where
  | single (a : α)
  | coll (xs : List α)
deriving DecidableEq, Repr

/-- `ChatJoinRequestHandler` from
`src/telegram/ext/_chatjoinrequesthandler.py`: the parsed frozensets of
allowed chat ids and usernames, plus the `BaseHandler` config. -/
structure ChatJoinRequestHandler where
  _chat_ids : Finset Int
  _usernames : Finset (List Char)
  callback : Nat
  block : Bool

/-- `ChatJoinRequestHandler._parse_chat_id`: `None` becomes the empty
frozenset, a single int a singleton, a collection its frozenset. -/
def ChatJoinRequestHandler._parse_chat_id :
    Option (SCT Int) → Finset Int
  | none => ∅
  | some (.single c) => {c}
  | some (.coll xs) => xs.toFinset

/-- Python `s.startswith("@")` on a string modelled as a char list. -/
def startswith_at : List Char → Bool
  | [] => false
  | c :: _ => c = '@'

/-- Python `usr[1:] if usr.startswith("@") else usr`. -/
def strip_at (usr : List Char) : List Char :=
  if startswith_at usr then usr.drop 1 else usr

/-- `ChatJoinRequestHandler._parse_username`: `None` becomes the empty
frozenset; otherwise each username has one leading `@` stripped and the
results are collected into a frozenset. -/
def ChatJoinRequestHandler._parse_username :
    Option (SCT (List Char)) → Finset (List Char)
  | none => ∅
  | some (.single usr) => {strip_at usr}
  | some (.coll xs) => (xs.map strip_at).toFinset

/-- `ChatJoinRequestHandler.__init__`: stores the callback and block
flag and the parsed chat-id and username frozensets. -/
def ChatJoinRequestHandler.init (callback : Nat)
    (chat_id : Option (SCT Int)) (username : Option (SCT (List Char)))
    (block : Bool) : ChatJoinRequestHandler :=
  { _chat_ids := ChatJoinRequestHandler._parse_chat_id chat_id
    _usernames := ChatJoinRequestHandler._parse_username username
    callback := callback
    block := block }

/-- `ChatJoinRequestHandler.check_update`: `True` exactly when the
object is an `Update` with a (truthy) `chat_join_request` and either no
restrictions are configured, or the chat id is allowed, or the
requesting user's username is allowed (`None` is in no frozenset of
strings). -/
def ChatJoinRequestHandler.check_update (h : ChatJoinRequestHandler)
    (update : PyObject) : Bool :=
  match update with
  | .update u =>
      match u.chat_join_request with
      | some req =>
          if h._chat_ids = ∅ ∧ h._usernames = ∅ then true
          else if req.chat.id ∈ h._chat_ids then true
          else
            match req.from_user.username with
            | some name => if name ∈ h._usernames then true else false
            | none => false
      | none => false
  | .other _ => false

/-! ## ChatPermissions -/

/-- `ChatPermissions` from `src/telegram/_chatpermissions.py`: nine
optional boolean permission attributes (each defaults to `None`). -/
structure ChatPermissions where
  can_send_messages : Option Bool := none
  can_send_media_messages : Option Bool := none
  can_send_polls : Option Bool := none
  can_send_other_messages : Option Bool := none
  can_add_web_page_previews : Option Bool := none
  can_change_info : Option Bool := none
  can_invite_users : Option Bool := none
  can_pin_messages : Option Bool := none
  can_manage_topics : Option Bool := none
deriving DecidableEq, Repr

/-- `ChatPermissions.__init__`: stores the nine permission arguments in
order. -/
def ChatPermissions.init (can_send_messages can_send_media_messages
    can_send_polls can_send_other_messages can_add_web_page_previews
    can_change_info can_invite_users can_pin_messages
    can_manage_topics : Option Bool) : ChatPermissions :=
  { can_send_messages := can_send_messages
    can_send_media_messages := can_send_media_messages
    can_send_polls := can_send_polls
    can_send_other_messages := can_send_other_messages
    can_add_web_page_previews := can_add_web_page_previews
    can_change_info := can_change_info
    can_invite_users := can_invite_users
    can_pin_messages := can_pin_messages
    can_manage_topics := can_manage_topics }

/-- The `_id_attrs` tuple set by `ChatPermissions.__init__`: exactly the
nine permission attributes, in source order (the homogeneous Python
9-tuple is modelled as a list). -/
def ChatPermissions._id_attrs (p : ChatPermissions) : List (Option Bool) :=
  [p.can_send_messages, p.can_send_media_messages, p.can_send_polls,
   p.can_send_other_messages, p.can_add_web_page_previews,
   p.can_change_info, p.can_invite_users, p.can_pin_messages,
   p.can_manage_topics]

/-- Modelled from the spec: `TelegramObject.__eq__` is not in the
provided sources; per the class docstring two `ChatPermissions` are
equal exactly when their nine permission attributes (the `_id_attrs`)
are equal. -/
def ChatPermissions.eq (a b : ChatPermissions) : Bool :=
  decide (a._id_attrs = b._id_attrs)

/-- `ChatPermissions.all_permissions()`: an instance with all nine
attributes set to `True`. -/
def ChatPermissions.all_permissions : ChatPermissions :=
  ChatPermissions.init (some true) (some true) (some true) (some true)
    (some true) (some true) (some true) (some true) (some true)

/-- `ChatPermissions.no_permissions()`: an instance with all nine
attributes set to `False`. -/
def ChatPermissions.no_permissions : ChatPermissions :=
  ChatPermissions.init (some false) (some false) (some false)
    (some false) (some false) (some false) (some false) (some false)
    (some false)

/-! ## Dispatcher (modelled from the spec) -/

/-- Modelled from the spec: a registered handler as the dispatcher sees
it — its `matches` predicate plus an identifier used to record which
callbacks get invoked.  The dispatcher/`Application.process_update`
code is not in the provided sources. -/
structure DHandler (V : Type) where
  id : Nat
  check_update : Update → FilterResult V

/-- The dispatcher's handler-group table: pairs of group priority and
the handlers registered in that group, kept sorted by ascending
priority with the handlers of one group in registration order. -/
abbrev HandlerTable (V : Type) := List (Int × List (DHandler V))

/-- Modelled from the spec: registration inserts the handler at the end
of its group's list, creating the group at its sorted position if it
does not exist yet. -/
def add_handler {V : Type} :
    HandlerTable V → DHandler V → Int → HandlerTable V
  | [], h, grp => [(grp, [h])]
  | (g, hs) :: rest, h, grp =>
      if grp < g then (grp, [h]) :: (g, hs) :: rest
      else if grp = g then (g, hs ++ [h]) :: rest
      else (g, hs) :: add_handler rest h grp

/-- The table obtained by registering `regs` (handler, group) pairs in
order, starting from an empty table. -/
def build_table {V : Type} (regs : List (DHandler V × Int)) :
    HandlerTable V :=
  regs.foldl (fun t r => add_handler t r.1 r.2) []

/-- Modelled from the spec: scanning one group — handlers are tried in
order and the scan stops at the first one whose match result is truthy,
returning its id; `none` when no handler of the group matches. -/
def scan_group {V : Type} (u : Update) : List (DHandler V) → Option Nat
  | [] => none
  | h :: rest =>
      if (h.check_update u).truthy then some h.id else scan_group u rest

/-- Modelled from the spec: dispatching one update — groups are visited
in table order (ascending priority); in each group at most the first
matching handler is invoked, and dispatch always continues into the
remaining groups.  Returns the ids of the invoked handlers in
invocation order. -/
def process_update {V : Type} (u : Update) : HandlerTable V → List Nat
  | [] => []
  | (g, hs) :: rest =>
      match scan_group u hs with
      | some i => i :: process_update u rest
      | none => process_update u rest

/-! ## AND filter composition (modelled from the spec) -/

/-- Modelled from the spec: merging two truthy match results under AND —
two dicts merge with last writer wins, a dict absorbs `True`, and
`True & True` is `True`. -/
def mergeMR {V : Type} : FilterResult V → FilterResult V → FilterResult V
  | .pyDict d1, .pyDict d2 => .pyDict (dict_update d1 d2)
  | .pyDict d1, _ => .pyDict d1
  | _, .pyDict d2 => .pyDict d2
  | _, _ => .pyBool true

/-- Modelled from the spec: the AND composition `f & g` — evaluate `f`,
short-circuit to `False` on a falsy result; evaluate `g`, short-circuit
to `False` on a falsy result; otherwise merge the two results. -/
def and_filter {V : Type} (f g : BaseFilter V) : BaseFilter V := fun u =>
  let r1 := f u
  if !r1.truthy then .pyBool false
  else
    let r2 := g u
    if !r2.truthy then .pyBool false
    else mergeMR r1 r2

/-! ## Concrete fixtures used to instantiate the theorems -/

/-- A pooled function that always raises. -/
def boom_fn : Unit → Unit → Except Exc Nat := fun _ _ => .error ⟨"boom"⟩

/-- The promise state after running `boom_fn`. -/
def boom_promise_done : Promise Unit Unit Nat :=
  { pooled_function := boom_fn
    args := ()
    kwargs := ()
    done := true
    _result := none
    _exception := some ⟨"boom"⟩ }

/-- A data filter extracting two named values. -/
def fA : BaseFilter Nat := fun _ => .pyDict [("a", 1), ("k", 5)]

/-- A second data filter whose `"k"` value collides with `fA`'s. -/
def fB : BaseFilter Nat := fun _ => .pyDict [("k", 9), ("b", 2)]

/-- A handler that matches every update. -/
def hA : DHandler Nat := ⟨1, fun _ => .pyBool true⟩

/-- A second always-matching handler. -/
def hB : DHandler Nat := ⟨2, fun _ => .pyBool true⟩

/-- A third always-matching handler. -/
def hC : DHandler Nat := ⟨3, fun _ => .pyBool true⟩

/-- A handler that never matches. -/
def hF : DHandler Nat := ⟨4, fun _ => .pyBool false⟩

/-- A join request for chat 42 from a user with no username. -/
def req42 : ChatJoinRequest :=
  { chat := { id := 42 }, from_user := { username := none } }

/-- An update carrying `req42`. -/
def u42 : Update := { chat_join_request := some req42 }

/-! ## Helper lemmas -/

theorem dict_lookup_dict_set {V : Type} (d : Context V) (k : Key) (v : V) :
    dict_lookup (dict_set d k v) k = some v := by
  induction d with
  | nil => simp [dict_set, dict_lookup]
  | cons kv rest ih =>
      by_cases hk : kv.1 = k
      · simp [dict_set, hk, dict_lookup]
      · simp [dict_set, hk, dict_lookup, ih]

/-! ## Claim theorems -/

/-- C10: `ChatPermissions.all_permissions()` has all nine permission
attributes set to `True` and `ChatPermissions.no_permissions()` has all
nine set to `False`; under the class's `_id_attrs`-based equality each
equals a `ChatPermissions` constructed with those nine values. -/
theorem chatpermissions_all_and_no_permissions :
    ChatPermissions.all_permissions.can_send_messages = some true ∧
    ChatPermissions.all_permissions.can_send_media_messages = some true ∧
    ChatPermissions.all_permissions.can_send_polls = some true ∧
    ChatPermissions.all_permissions.can_send_other_messages = some true ∧
    ChatPermissions.all_permissions.can_add_web_page_previews = some true ∧
    ChatPermissions.all_permissions.can_change_info = some true ∧
    ChatPermissions.all_permissions.can_invite_users = some true ∧
    ChatPermissions.all_permissions.can_pin_messages = some true ∧
    ChatPermissions.all_permissions.can_manage_topics = some true ∧
    ChatPermissions.no_permissions.can_send_messages = some false ∧
    ChatPermissions.no_permissions.can_send_media_messages = some false ∧
    ChatPermissions.no_permissions.can_send_polls = some false ∧
    ChatPermissions.no_permissions.can_send_other_messages = some false ∧
    ChatPermissions.no_permissions.can_add_web_page_previews = some false ∧
    ChatPermissions.no_permissions.can_change_info = some false ∧
    ChatPermissions.no_permissions.can_invite_users = some false ∧
    ChatPermissions.no_permissions.can_pin_messages = some false ∧
    ChatPermissions.no_permissions.can_manage_topics = some false ∧
    ChatPermissions.eq ChatPermissions.all_permissions
      (ChatPermissions.init (some true) (some true) (some true)
        (some true) (some true) (some true) (some true) (some true)
        (some true)) = true ∧
    ChatPermissions.eq ChatPermissions.no_permissions
      (ChatPermissions.init (some false) (some false) (some false)
        (some false) (some false) (some false) (some false) (some false)
        (some false)) = true := by
  decide

/-- C8: constructing a `MessageHandler` with `filters=None` sets its
filter attribute to `filters_module.ALL`, so `check_update` on every
`Update` returns a truthy match result. -/
theorem messagehandler_none_filters_defaults_to_all (cb : Nat) (bl : Bool)
    (u : Update) :
    (MessageHandler.init (V := Nat) none cb bl).filters =
      filters_module.ALL ∧
    ((MessageHandler.init (V := Nat) none cb bl).check_update
      (.update u)).truthy = true :=
  ⟨rfl, rfl⟩

/-- C5: `collect_additional_context` merges the extracted match data
into the context exactly when the check result is a dict (every
key-value pair of the dict is set in the context), and leaves the
context entirely unchanged when the check result is a boolean or
`None`. -/
theorem collect_additional_context_merges_only_dicts
    (context : Context Nat) (u : Update) (app : Unit)
    (d : List (Key × Nat)) (b : Bool) (k : Key) (v : Nat) :
    MessageHandler.collect_additional_context context u app (.pyDict d) =
      dict_update context d ∧
    MessageHandler.collect_additional_context context u app (.pyBool b) =
      context ∧
    MessageHandler.collect_additional_context context u app .pyNone =
      context ∧
    dict_lookup (MessageHandler.collect_additional_context context u app
      (.pyDict [(k, v)])) k = some v := by
  refine ⟨rfl, rfl, rfl, ?_⟩
  show dict_lookup (dict_update context [(k, v)]) k = some v
  show dict_lookup (dict_set context k v) k = some v
  exact dict_lookup_dict_set context k v

/-- C1 counterexample: `MessageHandler.check_update` applied to an
object that is not an `Update` returns `None`, which is neither
`False`, `True`, nor a mapping — refuting the claim that the returned
value is never anything other than those three. -/
theorem messagehandler_check_update_none_counterexample :
    (MessageHandler.init (V := Nat) none 0 true).check_update
      (.other 0) = .pyNone ∧
    ((MessageHandler.init (V := Nat) none 0 true).check_update
      (.other 0)).isBoolOrDict = false :=
  ⟨rfl, rfl⟩

/-- C1 (amended): for every `Update` input, `check_update` returns the
filter's result with any falsy result reported as `False` (hence always
`False`, `True`, or a mapping); for every non-`Update` input it returns
`None`. -/
theorem messagehandler_check_update_cases (h : MessageHandler Nat)
    (u : Update) (o : Nat) :
    h.check_update (.update u) =
      (if (h.filters u).truthy then h.filters u else .pyBool false) ∧
    (h.check_update (.update u)).isBoolOrDict = true ∧
    h.check_update (.other o) = .pyNone := by
  refine ⟨rfl, ?_, rfl⟩
  show (pyOrFalse (h.filters u)).isBoolOrDict = true
  unfold pyOrFalse
  split
  · rename_i htr
    cases hfu : h.filters u with
    | pyNone => rw [hfu] at htr; simp [FilterResult.truthy] at htr
    | pyBool b => rfl
    | pyDict d => rfl
  · rfl

/-- C2: `Promise.run` never lets an exception raised by
`pooled_function` propagate: it always returns normally (`.ok`), with
the `done` event set in every case, the result stored on success, and
the raised exception stored in `_exception` instead of propagating. -/
theorem promise_run_never_propagates {α γ β : Type}
    (f : α → γ → Except Exc β) (args : α) (kwargs : γ) :
    (Promise.run (Promise.init f args kwargs)).isOk = true ∧
    (∀ v, f args kwargs = .ok v →
      Promise.run (Promise.init f args kwargs) =
        .ok { pooled_function := f, args := args, kwargs := kwargs,
              done := true, _result := some v, _exception := none }) ∧
    (∀ e, f args kwargs = .error e →
      Promise.run (Promise.init f args kwargs) =
        .ok { pooled_function := f, args := args, kwargs := kwargs,
              done := true, _result := none, _exception := some e }) := by
  refine ⟨?_, ?_, ?_⟩
  · cases hf : f args kwargs <;>
      simp [Promise.run, Promise.init, hf, Except.isOk, Except.toBool]
  · intro v hv
    simp [Promise.run, Promise.init, hv]
  · intro e he
    simp [Promise.run, Promise.init, he]

/-- C2 witness: a pooled function that raises; `run` returns normally
with `done` set and the exception stored. -/
theorem promise_run_never_propagates_witness :
    boom_fn () () = .error ⟨"boom"⟩ ∧
    Promise.run (Promise.init boom_fn () ()) =
      .ok { pooled_function := boom_fn, args := (), kwargs := (),
            done := true, _result := none, _exception := some ⟨"boom"⟩ } :=
  ⟨rfl, (promise_run_never_propagates boom_fn () ()).2.2 ⟨"boom"⟩ rfl⟩

/-- C3: for every promise state produced by a completed `run`,
`Promise.result` raises exactly the exception `pooled_function` raised
when it raised one, returns `pooled_function`'s return value when it
returned, and raises only if `pooled_function` raised. -/
theorem promise_result_reports_outcome {α γ β : Type}
    (f : α → γ → Except Exc β) (args : α) (kwargs : γ)
    (q : Promise α γ β)
    (hq : Promise.run (Promise.init f args kwargs) = .ok q) :
    (∀ e, f args kwargs = .error e → q.result none = .error e) ∧
    (∀ v, f args kwargs = .ok v → q.result none = .ok (some v)) ∧
    (∀ e, q.result none = .error e → f args kwargs = .error e) := by
  cases hf : f args kwargs with
  | ok v0 =>
      rw [show Promise.run (Promise.init f args kwargs) =
            .ok { pooled_function := f, args := args, kwargs := kwargs,
                  done := true, _result := some v0, _exception := none }
          from by simp [Promise.run, Promise.init, hf]] at hq
      injection hq with hq'
      refine ⟨?_, ?_, ?_⟩
      · intro e he; cases he
      · intro v hv
        injection hv with hv'
        subst hv'
        rw [← hq']
        rfl
      · intro e he
        rw [← hq'] at he
        simp [Promise.result] at he
  | error e0 =>
      rw [show Promise.run (Promise.init f args kwargs) =
            .ok { pooled_function := f, args := args, kwargs := kwargs,
                  done := true, _result := none, _exception := some e0 }
          from by simp [Promise.run, Promise.init, hf]] at hq
      injection hq with hq'
      refine ⟨?_, ?_, ?_⟩
      · intro e he
        injection he with he'
        subst he'
        rw [← hq']
        rfl
      · intro v hv; cases hv
      · intro e he
        rw [← hq'] at he
        simp only [Promise.result] at he
        injection he with he'
        rw [he']

/-- C3 witness: for the concrete raising pooled function, the completed
promise's `result` re-raises exactly the stored exception. -/
theorem promise_result_reports_outcome_witness :
    Promise.run (Promise.init boom_fn () ()) = .ok boom_promise_done ∧
    boom_fn () () = .error ⟨"boom"⟩ ∧
    boom_promise_done.result none = .error ⟨"boom"⟩ :=
  ⟨rfl, rfl,
    (promise_result_reports_outcome boom_fn () () boom_promise_done
      rfl).1 ⟨"boom"⟩ rfl⟩

/-- C4: `ChatJoinRequestHandler.check_update` returns `True` exactly
when the object is an `Update` exposing a `chat_join_request` and
either no chat-id and no username restriction is configured, or the
request's chat id is among the configured chat ids, or the requesting
user's username is among the configured usernames; every other input
(including non-`Update` objects) yields `False`. -/
theorem chatjoinrequesthandler_check_update_iff
    (h : ChatJoinRequestHandler) (o : PyObject) :
    h.check_update o = true ↔
      ∃ u req, o = PyObject.update u ∧ u.chat_join_request = some req ∧
        ((h._chat_ids = ∅ ∧ h._usernames = ∅) ∨
         req.chat.id ∈ h._chat_ids ∨
         (∃ name, req.from_user.username = some name ∧
            name ∈ h._usernames)) := by
  cases o with
  | other n => simp [ChatJoinRequestHandler.check_update]
  | update u =>
      cases hreq : u.chat_join_request with
      | none => simp [ChatJoinRequestHandler.check_update, hreq]
      | some req =>
          simp only [ChatJoinRequestHandler.check_update, hreq]
          by_cases h1 : h._chat_ids = ∅ ∧ h._usernames = ∅
          · simp [h1, hreq]
          · simp only [h1, if_false]
            by_cases h2 : req.chat.id ∈ h._chat_ids
            · simp [h1, h2, hreq]
            · cases hun : req.from_user.username with
              | none => simp [h1, h2, hreq, hun]
              | some name =>
                  by_cases h3 : name ∈ h._usernames
                  · simp [h1, h2, h3, hreq, hun]
                  · simp [h1, h2, h3, hreq, hun]

/-- C9: username parsing strips exactly one leading `@`: for every
username `s` not itself starting with `@`, a handler configured with
`"@" ++ s` parses to the same frozenset as one configured with `s`, and
the two handlers accept exactly the same inputs. -/
theorem chatjoinrequesthandler_username_at_stripped (s : List Char)
    (hs : startswith_at s = false) (cb : Nat) (bl : Bool)
    (chat_id : Option (SCT Int)) (o : PyObject) :
    ChatJoinRequestHandler._parse_username (some (.single ('@' :: s))) =
      ChatJoinRequestHandler._parse_username (some (.single s)) ∧
    (ChatJoinRequestHandler.init cb chat_id
        (some (.single ('@' :: s))) bl).check_update o =
      (ChatJoinRequestHandler.init cb chat_id
        (some (.single s)) bl).check_update o := by
  have hstrip : strip_at ('@' :: s) = s := by
    simp [strip_at, startswith_at]
  have hstrip2 : strip_at s = s := by
    simp [strip_at, hs]
  have hp : ChatJoinRequestHandler._parse_username
      (some (.single ('@' :: s))) =
      ChatJoinRequestHandler._parse_username (some (.single s)) := by
    simp [ChatJoinRequestHandler._parse_username, hstrip, hstrip2]
  refine ⟨hp, ?_⟩
  have heq : ChatJoinRequestHandler.init cb chat_id
      (some (.single ('@' :: s))) bl =
      ChatJoinRequestHandler.init cb chat_id (some (.single s)) bl := by
    unfold ChatJoinRequestHandler.init
    rw [hp]
  rw [heq]

/-- C9 witness: with the concrete username `"a"`, prefixing `@` makes
no difference to the parsed set nor to `check_update`. -/
theorem chatjoinrequesthandler_username_at_stripped_witness :
    startswith_at ['a'] = false ∧
    (ChatJoinRequestHandler._parse_username
        (some (.single ('@' :: ['a']))) =
      ChatJoinRequestHandler._parse_username (some (.single ['a'])) ∧
    (ChatJoinRequestHandler.init 0 none
        (some (.single ('@' :: ['a']))) true).check_update
          (.update { chat_join_request := none }) =
      (ChatJoinRequestHandler.init 0 none
        (some (.single ['a'])) true).check_update
          (.update { chat_join_request := none })) :=
  ⟨rfl, chatjoinrequesthandler_username_at_stripped ['a'] rfl 0 true none
    (.update { chat_join_request := none })⟩

/-- C6: the AND composition of two filters equals the merge of both
results when both match (dicts merge with last writer wins on key
collision, `True & True = True`), and short-circuits to `False`
whenever either operand's result is falsy. -/
theorem and_filter_merges_and_short_circuits (f g : BaseFilter Nat)
    (u : Update) (d1 d2 : Context Nat) (k : Key) (v : Nat) :
    ((f u).truthy = true → (g u).truthy = true →
      and_filter f g u = mergeMR (f u) (g u)) ∧
    ((f u).truthy = false → and_filter f g u = .pyBool false) ∧
    ((g u).truthy = false → and_filter f g u = .pyBool false) ∧
    mergeMR (FilterResult.pyDict d1) (FilterResult.pyDict d2) =
      .pyDict (dict_update d1 d2) ∧
    mergeMR (FilterResult.pyBool true)
      (FilterResult.pyBool true : FilterResult Nat) = .pyBool true ∧
    dict_lookup (dict_update d1 [(k, v)]) k = some v := by
  refine ⟨?_, ?_, ?_, rfl, rfl, ?_⟩
  · intro h1 h2
    simp [and_filter, h1, h2]
  · intro h1
    simp [and_filter, h1]
  · intro h2
    by_cases h1 : (f u).truthy = true
    · simp [and_filter, h1, h2]
    · simp only [Bool.not_eq_true] at h1
      simp [and_filter, h1]
  · show dict_lookup (dict_set d1 k v) k = some v
    exact dict_lookup_dict_set d1 k v

/-- C6 witness: two concrete data filters whose `"k"` keys collide;
their AND composition merges the dicts with the right operand's value
winning. -/
theorem and_filter_merges_and_short_circuits_witness :
    (fA { chat_join_request := none }).truthy = true ∧
    (fB { chat_join_request := none }).truthy = true ∧
    and_filter fA fB { chat_join_request := none } =
      mergeMR (fA { chat_join_request := none })
        (fB { chat_join_request := none }) ∧
    and_filter fA fB { chat_join_request := none } =
      .pyDict [("a", 1), ("k", 9), ("b", 2)] :=
  ⟨rfl, rfl,
    (and_filter_merges_and_short_circuits fA fB
      { chat_join_request := none } [] [] "k" 0).1 rfl rfl,
    rfl⟩

theorem scan_group_eq_find {V : Type} (u : Update)
    (hs : List (DHandler V)) :
    scan_group u hs =
      (hs.find? (fun x => (x.check_update u).truthy)).map DHandler.id := by
  induction hs with
  | nil => rfl
  | cons h t ih =>
      by_cases htr : (h.check_update u).truthy = true
      · simp [scan_group, htr, List.find?_cons]
      · simp only [Bool.not_eq_true] at htr
        simp [scan_group, htr, List.find?_cons, ih]

theorem process_update_eq_filterMap {V : Type} (u : Update)
    (t : HandlerTable V) :
    process_update u t =
      t.filterMap (fun grp =>
        (grp.2.find? (fun x => (x.check_update u).truthy)).map
          DHandler.id) := by
  induction t with
  | nil => rfl
  | cons gh rest ih =>
      obtain ⟨g, hs⟩ := gh
      cases hsg : scan_group u hs with
      | none =>
          rw [scan_group_eq_find] at hsg
          simp [process_update, scan_group_eq_find, hsg, ih,
            List.filterMap_cons]
      | some i =>
          rw [scan_group_eq_find] at hsg
          simp [process_update, scan_group_eq_find, hsg, ih,
            List.filterMap_cons]

theorem add_handler_fst_mem {V : Type} (t : HandlerTable V)
    (h : DHandler V) (grp : Int) :
    ∀ x ∈ add_handler t h grp, x.1 = grp ∨ x.1 ∈ t.map Prod.fst := by
  induction t with
  | nil =>
      intro x hx
      simp [add_handler] at hx
      subst hx
      exact Or.inl rfl
  | cons gh rest ih =>
      obtain ⟨g, hs⟩ := gh
      intro x hx
      simp only [add_handler] at hx
      split_ifs at hx with h1 h2
      · rcases List.mem_cons.mp hx with hx | hx
        · subst hx; exact Or.inl rfl
        · exact Or.inr (List.mem_map_of_mem Prod.fst hx)
      · rcases List.mem_cons.mp hx with hx | hx
        · subst hx; exact Or.inl h2.symm
        · refine Or.inr ?_
          simp only [List.map_cons, List.mem_cons]
          exact Or.inr (List.mem_map_of_mem Prod.fst hx)
      · rcases List.mem_cons.mp hx with hx | hx
        · subst hx
          refine Or.inr ?_
          simp
        · rcases ih x hx with hg | hg
          · exact Or.inl hg
          · refine Or.inr ?_
            simp only [List.map_cons, List.mem_cons]
            exact Or.inr hg

theorem add_handler_sorted {V : Type} (t : HandlerTable V)
    (h : DHandler V) (grp : Int)
    (ht : t.Pairwise (fun a b => a.1 < b.1)) :
    (add_handler t h grp).Pairwise (fun a b => a.1 < b.1) := by
  induction t with
  | nil => simp [add_handler]
  | cons gh rest ih =>
      obtain ⟨g, hs⟩ := gh
      rw [List.pairwise_cons] at ht
      obtain ⟨hg, hrest⟩ := ht
      simp only [add_handler]
      split_ifs with h1 h2
      · refine List.pairwise_cons.mpr ⟨?_, List.pairwise_cons.mpr ⟨hg, hrest⟩⟩
        intro a ha
        rcases List.mem_cons.mp ha with ha | ha
        · subst ha; exact h1
        · exact lt_trans h1 (hg a ha)
      · exact List.pairwise_cons.mpr ⟨hg, hrest⟩
      · refine List.pairwise_cons.mpr ⟨?_, ih hrest⟩
        intro a ha
        rcases add_handler_fst_mem rest h grp a ha with hfst | hfst
        · rw [hfst]; omega
        · rcases List.mem_map.mp hfst with ⟨b, hb, hfst'⟩
          rw [← hfst']
          exact hg b hb

theorem build_table_sorted_from {V : Type}
    (regs : List (DHandler V × Int)) (t : HandlerTable V)
    (ht : t.Pairwise (fun a b => a.1 < b.1)) :
    (regs.foldl (fun acc r => add_handler acc r.1 r.2) t).Pairwise
      (fun a b => a.1 < b.1) := by
  induction regs generalizing t with
  | nil => exact ht
  | cons r rest ih =>
      exact ih (add_handler t r.1 r.2) (add_handler_sorted t r.1 r.2 ht)

theorem scan_group_first_truthy {V : Type} (u : Update)
    (pre post : List (DHandler V)) (h : DHandler V)
    (hpre : ∀ x ∈ pre, (x.check_update u).truthy = false)
    (htr : (h.check_update u).truthy = true) :
    scan_group u (pre ++ h :: post) = some h.id := by
  induction pre with
  | nil => simp [scan_group, htr]
  | cons x xs ih =>
      have hx := hpre x (List.mem_cons_self x xs)
      simp only [List.cons_append, scan_group, hx]
      exact ih (fun y hy => hpre y (List.mem_cons_of_mem x hy))

/-- C7: handler tables built by registration are sorted by ascending
group priority and dispatch visits them in that order; within a group
only the first handler (in list order) with a truthy match result is
invoked, later handlers of the group are never offered the update, and
dispatch continues into every later group regardless of earlier
matches (one invocation recorded per matching group). -/
theorem dispatch_ascending_groups_first_match_per_group
    (regs : List (DHandler Nat × Int)) (u : Update)
    (pre post post2 : List (DHandler Nat)) (h : DHandler Nat)
    (hpre : ∀ x ∈ pre, (x.check_update u).truthy = false)
    (htr : (h.check_update u).truthy = true) :
    (build_table regs).Pairwise (fun a b => a.1 < b.1) ∧
    process_update u (build_table regs) =
      (build_table regs).filterMap (fun grp =>
        (grp.2.find? (fun x => (x.check_update u).truthy)).map
          DHandler.id) ∧
    scan_group u (pre ++ h :: post) = some h.id ∧
    scan_group u (pre ++ h :: post) =
      scan_group u (pre ++ h :: post2) := by
  refine ⟨build_table_sorted_from regs [] (by simp),
    process_update_eq_filterMap u _,
    scan_group_first_truthy u pre post h hpre htr, ?_⟩
  rw [scan_group_first_truthy u pre post h hpre htr,
    scan_group_first_truthy u pre post2 h hpre htr]

/-- C7 witness: the spec's scenario — groups 0 with two always-matching
handlers and group 1 with one; dispatch invokes the first handler of
group 0 and then the handler of group 1; a non-matching handler before
a matching one does not stop the scan, and handlers after the match
are irrelevant. -/
theorem dispatch_ascending_groups_first_match_per_group_witness :
    (hF.check_update { chat_join_request := none }).truthy = false ∧
    (hA.check_update { chat_join_request := none }).truthy = true ∧
    process_update { chat_join_request := none }
      (build_table [(hA, 0), (hB, 0), (hC, 1)]) = [1, 3] ∧
    ((build_table [(hA, 0), (hB, 0), (hC, 1)]).Pairwise
        (fun a b => a.1 < b.1) ∧
     process_update { chat_join_request := none }
        (build_table [(hA, 0), (hB, 0), (hC, 1)]) =
       (build_table [(hA, 0), (hB, 0), (hC, 1)]).filterMap (fun grp =>
         (grp.2.find? (fun x =>
           (x.check_update { chat_join_request := none }).truthy)).map
             DHandler.id) ∧
     scan_group { chat_join_request := none } ([hF] ++ hA :: [hB]) =
       some hA.id ∧
     scan_group { chat_join_request := none } ([hF] ++ hA :: [hB]) =
       scan_group { chat_join_request := none } ([hF] ++ hA :: [])) :=
  ⟨rfl, rfl, rfl,
    dispatch_ascending_groups_first_match_per_group
      [(hA, 0), (hB, 0), (hC, 1)] { chat_join_request := none }
      [hF] [hB] [] hA
      (by
        intro x hx
        rw [List.mem_singleton] at hx
        subst hx
        rfl)
      rfl⟩

/-- C4 witness: a handler restricted to chat id 42 accepts a join
request for chat 42. -/
theorem chatjoinrequesthandler_check_update_iff_witness :
    (ChatJoinRequestHandler.init 0 (some (.single 42)) none
      true).check_update (.update u42) = true :=
  (chatjoinrequesthandler_check_update_iff
      (ChatJoinRequestHandler.init 0 (some (.single 42)) none true)
      (.update u42)).mpr
    ⟨u42, req42, rfl, rfl, Or.inr (Or.inl (by decide))⟩
